/-
Verification of the go-fdo-manufacturing-station voucher-transfer core.

Shallow embedding of the Go sources:
  did_resolver.go      — DID resolution with a time-boxed, failure-tolerant cache
  owner_key_service.go — owner key resolution via external authority callback
  voucher_callback.go  — per-device voucher transfer orchestration

Modelling conventions:
  * time.Time and time.Duration values are Int (nanoseconds); Sub is integer
    subtraction, comparisons are integer comparisons.
  * crypto.PublicKey values are the inductive PubKeyVal; the x509
    marshal/parse pair (an external library) is modelled by an executable
    codec with the same success/failure shape.
  * network and database side effects are made explicit: the did_cache table
    is a list of rows, each database helper is a pure function on it, and
    every performed cache operation is recorded in a CacheOp trace.
  * external collaborators (HTTP fetch+parse pipeline, external command
    executor, signing/upload/disk services, fdo.ExtendVoucher) are oracle
    parameters, matching the repository spec which treats them as external
    interfaces.
  * go panics (for example an out-of-range slice index) are a distinct
    GoError constructor, separate from returned errors.
-/

import Mathlib

/-- A Go function outcome: a returned error value, or a runtime panic. -/
inductive GoError where
  | err (msg : String)
  | panic (msg : String)
deriving DecidableEq, Repr

/-- Abstract public key values, standing for crypto.PublicKey.
ec models *ecdsa.PublicKey (curve name and coordinates), rsa models
*rsa.PublicKey, certChain models a certificate chain, other models any
further concrete type (for example an ed25519 key). -/
inductive PubKeyVal where
  | ec (crv : String) (x y : Nat)
  | rsa (n e : Nat)
  | certChain (certs : List Nat)
  | other (tag : Nat)
deriving DecidableEq, Repr

def charsToNats (s : String) : List Nat := s.toList.map (fun c => c.toNat)

def natsToChars (l : List Nat) : String := String.mk (l.map (fun n => Char.ofNat n))

/-- Model of x509.MarshalPKIXPublicKey (external library): an executable
injective-enough serialisation of a key into bytes. -/
def marshalPKIXPublicKey : PubKeyVal → List Nat
  | .ec crv x y => 0 :: x :: y :: charsToNats crv
  | .rsa n e => [1, n, e]
  | .certChain certs => 2 :: certs
  | .other tag => [3, tag]

/-- Model of x509.ParsePKIXPublicKey (external library): partial inverse of
the marshaller; garbage bytes fail to parse. -/
def parsePKIXPublicKey : List Nat → Option PubKeyVal
  | 0 :: x :: y :: rest => some (.ec (natsToChars rest) x y)
  | [1, n, e] => some (.rsa n e)
  | 2 :: certs => some (.certChain certs)
  | [3, tag] => some (.other tag)
  | _ => none

/-- strings.HasPrefix from the Go standard library, modelled on character
lists so that it evaluates inside the kernel. -/
def stringsHasPfx (s pre : String) : Bool :=
  pre.data.isPrefixOf s.data

def splitColonChars : List Char → List (List Char)
  | [] => [[]]
  | c :: rest =>
      match splitColonChars rest with
      | s :: ss => if c = ':' then [] :: s :: ss else (c :: s) :: ss
      | [] => [[c]]

/-- strings.Split with separator ":" from the Go standard library: the
colon-separated segments, one segment [""] for the empty string. -/
def stringsSplitColon (s : String) : List String :=
  (splitColonChars s.data).map fun l => String.mk l

/-- DIDCache configuration (struct DIDCache, fields as used by
did_resolver.go and defined with the rest of the configuration in the
repository documentation). Durations are Int nanoseconds. -/
structure DIDCache where
  Enabled : Bool
  RefreshInterval : Int
  MaxAge : Int
  FailureBackoff : Int
  PurgeUnused : Int
deriving DecidableEq, Repr

/-- struct DIDCacheEntry from did_resolver.go: one row of the did_cache
table. Timestamp is the resolved-at time. -/
structure DIDCacheEntry where
  DIDURI : String
  PublicKey : List Nat
  DIDURL : String
  Timestamp : Int
  LastRefreshAttempt : Int
  LastRefreshError : String
  LastUsed : Int
deriving DecidableEq, Repr

/-- The did_cache table: its rows. -/
abbrev Cache := List DIDCacheEntry

/-- One performed Cache Store operation, recorded for frame reasoning. -/
inductive CacheOp where
  | read (uri : String)
  | touchLastUsed (uri : String) (t : Int)
  | upsert (e : DIDCacheEntry)
  | recordError (uri : String) (t : Int) (msg : String)
deriving DecidableEq, Repr

/-- getFromCache: select the row keyed by the DID URI (the table holds at
most one row per URI; a database error or missing row is None). -/
def getFromCache (cache : Cache) (uri : String) : Option DIDCacheEntry :=
  cache.find? (fun e => e.DIDURI == uri)

/-- updateLastUsed: update last_used where did_uri matches. -/
def updateLastUsed (cache : Cache) (uri : String) (t : Int) : Cache :=
  cache.map (fun e => if e.DIDURI == uri then { e with LastUsed := t } else e)

/-- updateCacheError: update last_refresh_attempt and last_refresh_error
where did_uri matches; timestamp (resolved_at) is not in the update set. -/
def updateCacheError (cache : Cache) (uri : String) (t : Int) (msg : String) : Cache :=
  cache.map (fun e =>
    if e.DIDURI == uri then { e with LastRefreshAttempt := t, LastRefreshError := msg } else e)

/-- updateCache: insertOrIgnore then insert-with-where, net effect an upsert
keyed by did_uri. -/
def updateCache (cache : Cache) (entry : DIDCacheEntry) : Cache :=
  if cache.any (fun e => e.DIDURI == entry.DIDURI) then
    cache.map (fun e => if e.DIDURI == entry.DIDURI then entry else e)
  else
    cache ++ [entry]

/-- shouldRefresh from did_resolver.go, deciding whether a cached entry is
refreshed at time now. -/
def shouldRefresh (config : DIDCache) (cached : DIDCacheEntry) (now : Int) : Bool :=
  -- If older than MaxAge, must refresh
  if now - cached.Timestamp > config.MaxAge then true
  -- If within RefreshInterval, do not refresh
  else if now - cached.Timestamp < config.RefreshInterval then false
  -- If we tried recently and failed, wait for backoff
  else if now - cached.LastRefreshAttempt < config.FailureBackoff then false
  else true

/-- The network side of fetchDIDWeb (URL construction, HTTP GET with
timeout, DID-document parse, verification-method key extraction, vendor
extension read): an oracle from the DID URI to either a failure message or
the extracted (public key, voucherRecipientURL). -/
abbrev NetFetch := String → Except String (PubKeyVal × String)

/-- fetchDIDWeb from did_resolver.go: on any failure of the fetch+parse
pipeline the failure is recorded with updateCacheError and returned; on
success a fresh row is upserted with timestamp = last_refresh_attempt = now
and empty last_refresh_error, and the key and URL are returned. -/
def fetchDIDWeb (net : NetFetch) (cache : Cache) (uri : String) (now : Int) :
    Except GoError (PubKeyVal × String) × Cache × List CacheOp :=
  match net uri with
  | .error msg =>
      (.error (.err msg), updateCacheError cache uri now msg, [CacheOp.recordError uri now msg])
  | .ok (k, didURL) =>
      let entry : DIDCacheEntry :=
        { DIDURI := uri, PublicKey := marshalPKIXPublicKey k, DIDURL := didURL
          Timestamp := now, LastRefreshAttempt := now, LastRefreshError := ""
          LastUsed := now }
      (.ok (k, didURL), updateCache cache entry, [CacheOp.upsert entry])

/-- extractPublicKeyFromDIDKey from did_resolver.go: unconditionally fails
("did:key resolution not yet implemented"). -/
def extractPublicKeyFromDIDKey (_didKey : String) : Except String PubKeyVal :=
  .error "did:key resolution not yet implemented - need proper multicodec decoding"

/-- refreshFromNetwork from did_resolver.go: dispatch a network refresh by
method; unsupported methods index the second colon-separated segment, which
panics when the URI has fewer than two segments. -/
def refreshFromNetwork (net : NetFetch) (cache : Cache) (uri : String) (now : Int) :
    Except GoError (PubKeyVal × String) × Cache × List CacheOp :=
  if stringsHasPfx uri "did:web:" then
    fetchDIDWeb net cache uri now
  else if stringsHasPfx uri "did:key:" then
    match extractPublicKeyFromDIDKey uri with
    | .error e =>
        let msg := "failed to extract public key: " ++ e
        (.error (.err msg), updateCacheError cache uri now msg, [CacheOp.recordError uri now msg])
    | .ok k =>
        let entry : DIDCacheEntry :=
          { DIDURI := uri, PublicKey := marshalPKIXPublicKey k, DIDURL := ""
            Timestamp := now, LastRefreshAttempt := now, LastRefreshError := ""
            LastUsed := now }
        (.ok (k, ""), updateCache cache entry, [CacheOp.upsert entry])
  else
    match (stringsSplitColon uri).get? 1 with
    | some m => (.error (.err ("unsupported DID method: " ++ m)), cache, [])
    | none => (.error (.panic "runtime error: index out of range"), cache, [])

/-- resolveDIDWebCached from did_resolver.go: cache-first resolution of a
web-hosted DID with refresh policy and stale-on-failure fallback. -/
def resolveDIDWebCached (config : DIDCache) (net : NetFetch) (cache : Cache)
    (uri : String) (now : Int) :
    Except GoError (PubKeyVal × String) × Cache × List CacheOp :=
  match getFromCache cache uri with
  | some cached =>
      -- update last used time
      let cache1 := updateLastUsed cache uri now
      let tr1 := [CacheOp.read uri, CacheOp.touchLastUsed uri now]
      if shouldRefresh config cached now then
        match refreshFromNetwork net cache1 uri now with
        | (.ok r, cache2, tr2) => (.ok r, cache2, tr1 ++ tr2)
        | (.error _, cache2, tr2) =>
            -- refresh failed, use cached entry
            match parsePKIXPublicKey cached.PublicKey with
            | some k => (.ok (k, cached.DIDURL), cache2, tr1 ++ tr2)
            | none =>
                (.error (.err "failed to deserialize cached public key"), cache2, tr1 ++ tr2)
      else
        match parsePKIXPublicKey cached.PublicKey with
        | some k => (.ok (k, cached.DIDURL), cache1, tr1)
        | none => (.error (.err "failed to deserialize cached public key"), cache1, tr1)
  | none =>
      -- not in cache or cache error, fetch from network
      let out := refreshFromNetwork net cache uri now
      (out.1, out.2.1, CacheOp.read uri :: out.2.2)

/-- resolveDIDKeyDirect from did_resolver.go: resolve did:key without
caching; with extractPublicKeyFromDIDKey unimplemented this always returns
the wrapped extraction error, touching nothing. -/
def resolveDIDKeyDirect (uri : String) : Except GoError (PubKeyVal × String) :=
  match extractPublicKeyFromDIDKey uri with
  | .error e => .error (.err ("failed to extract public key from did:key: " ++ e))
  | .ok k => .ok (k, "")

/-- ResolveDIDKey from did_resolver.go: the public resolution entry point.
Returns the result together with the resulting did_cache table and the
trace of performed Cache Store operations. -/
def ResolveDIDKey (config : DIDCache) (net : NetFetch) (cache : Cache)
    (uri : String) (now : Int) :
    Except GoError (PubKeyVal × String) × Cache × List CacheOp :=
  if !config.Enabled then
    (.error (.err "DID cache is disabled"), cache, [])
  -- Handle did:key directly (no caching)
  else if stringsHasPfx uri "did:key:" then
    (resolveDIDKeyDirect uri, cache, [])
  -- Handle did:web with caching
  else if stringsHasPfx uri "did:web:" then
    resolveDIDWebCached config net cache uri now
  else
    match (stringsSplitColon uri).get? 1 with
    | some m => (.error (.err ("unsupported DID method: " ++ m)), cache, [])
    | none => (.error (.panic "runtime error: index out of range"), cache, [])

/-
JWK parsing (did_resolver.go, parseJWK / parseECJWK / parseRSAJWK).

A JWK arrives as a JSON object (map[string]interface{}); the fields the
code and the spec talk about are modelled explicitly, each optional since
a map lookup plus string type assertion may fail.

The randomness consumed from crypto/rand by ecdsa.GenerateKey and
rsa.GenerateKey is an explicit argument: freshEC gives the coordinates of
the generated EC key, freshRSA the modulus and exponent of the generated
RSA key.
-/

/-- A JSON Web Key object, with the fields relevant to key decoding. -/
structure JWK where
  kty : Option String
  crv : Option String
  x : Option String
  y : Option String
  n : Option String
  e : Option String
deriving DecidableEq, Repr

/-- parseECJWK from did_resolver.go: reads crv, then generates a fresh test
key on that curve from the ambient randomness; the x and y fields of the
JWK are never read. -/
def parseECJWK (freshEC : Nat × Nat) (jwkData : JWK) : Except String PubKeyVal :=
  match jwkData.crv with
  | none => .error "missing or invalid crv in EC JWK"
  | some crv =>
      if crv = "P-256" ∨ crv = "P-384" then
        -- Generate a test key for the specified curve
        .ok (.ec crv freshEC.1 freshEC.2)
      else
        .error ("unsupported EC curve: " ++ crv)

/-- parseRSAJWK from did_resolver.go: generates a fresh 2048-bit test RSA
key from the ambient randomness; no field of the JWK is read. -/
def parseRSAJWK (freshRSA : Nat × Nat) (_jwkData : JWK) : Except String PubKeyVal :=
  .ok (.rsa freshRSA.1 freshRSA.2)

/-- parseJWK from did_resolver.go: dispatch on kty. -/
def parseJWK (freshEC freshRSA : Nat × Nat) (jwkData : JWK) : Except String PubKeyVal :=
  match jwkData.kty with
  | none => .error "missing or invalid kty in JWK"
  | some kty =>
      if kty = "EC" then parseECJWK freshEC jwkData
      else if kty = "RSA" then parseRSAJWK freshRSA jwkData
      else .error ("unsupported JWK key type: " ++ kty)

/-
Owner Key Service (owner_key_service.go).

The external command execution and the JSON unmarshalling of its output
are external steps; GetOwnerKey is modelled from the parsed
OwnerKeyResponse onward. PEM decoding (pem/x509) is an oracle.
-/

/-- struct OwnerKeyResponse: the parsed JSON envelope from the authority. -/
structure OwnerKeyResponse where
  OwnerKeyPEM : String
  OwnerDID : String
  Error : String
deriving DecidableEq, Repr

/-- struct OwnerKeyResult: resolved owner public key plus optional
voucherRecipientURL. -/
structure OwnerKeyResult where
  PublicKey : PubKeyVal
  DIDURL : String
deriving DecidableEq, Repr

/-- handleDIDResponse from owner_key_service.go: builds a fresh resolver
with a nil session state and the literal config DIDCache{Enabled: false}
(all other fields zero), and delegates to ResolveDIDKey. The nil session
state is an empty cache table. -/
def handleDIDResponse (net : NetFetch) (didURI : String) (now : Int) :
    Except GoError OwnerKeyResult :=
  let disabledConfig : DIDCache :=
    { Enabled := false, RefreshInterval := 0, MaxAge := 0, FailureBackoff := 0, PurgeUnused := 0 }
  match (ResolveDIDKey disabledConfig net ([] : Cache) didURI now).1 with
  | .error (.err m) => .error (.err ("failed to resolve DID " ++ didURI ++ ": " ++ m))
  | .error (.panic m) => .error (.panic m)
  | .ok (k, didURL) => .ok { PublicKey := k, DIDURL := didURL }

/-- GetOwnerKey from owner_key_service.go, from the parsed response onward:
error field short-circuits; a DID is delegated to handleDIDResponse; else a
PEM key is decoded (pemParse models parsePublicKeyFromPEM, whose body is
the external pem/x509 library); an empty response fails. -/
def GetOwnerKey (net : NetFetch) (pemParse : String → Except String PubKeyVal)
    (resp : OwnerKeyResponse) (now : Int) : Except GoError OwnerKeyResult :=
  if resp.Error ≠ "" then
    .error (.err ("owner key service error: " ++ resp.Error))
  else if resp.OwnerDID ≠ "" then
    handleDIDResponse net resp.OwnerDID now
  else if resp.OwnerKeyPEM = "" then
    .error (.err "no owner key returned")
  else
    match pemParse resp.OwnerKeyPEM with
    | .error e => .error (.err ("failed to parse PEM key: " ++ e))
    | .ok k => .ok { PublicKey := k, DIDURL := "" }

/-
Voucher Transfer Orchestrator (voucher_callback.go, BeforeVoucherPersist).

The voucher is the opaque credential owned by the calling engine; the
orchestrator reads its GUID and DeviceInfo header fields and replaces the
whole value after a successful sign or extend. Collaborator services are
oracle parameters, one per service, mirroring the fields of
VoucherCallbackService whose implementations are outside this core:
  parseStatic — parseStaticPublicKey (pem/x509 body)
  getOwner    — OwnerKeyService.GetOwnerKey (external command + resolution)
  oveExtra    — OVEExtraDataService.GetOVEExtraData, None when the service
                pointer is nil
  signV       — VoucherSigningService.SignVoucher
  extendV     — fdo.ExtendVoucher
  uploadV     — VoucherUploadService.UploadVoucher
  saveDisk    — VoucherDiskService.SaveVoucherToDisk
Every collaborator invocation is recorded in a WorkflowOp trace.
-/

/-- custom.DeviceMfgInfo, as read through the DeviceSelfInfo accessor. -/
structure DeviceMfgInfo where
  SerialNumber : String
  DeviceInfo : String
deriving DecidableEq, Repr

/-- fdo.Voucher, abstracted: the header fields the orchestrator reads plus
an opaque body distinguishing voucher values. -/
structure Voucher where
  GUID : List Nat
  DeviceInfo : String
  body : Nat
deriving DecidableEq, Repr

/-- An interface value assigned to the nextOwner variable
(crypto.PublicKey, which is interface{}): either an actual public key, or —
as the dynamic branch of the source writes it — the entire OwnerKeyResult
asserted to crypto.PublicKey. -/
inductive GoVal where
  | key (k : PubKeyVal)
  | ownerResult (r : OwnerKeyResult)
deriving DecidableEq, Repr

/-- OVEExtra data: CBOR map entries keyed by int. -/
abbrev ExtraData := List (Nat × List Nat)

/-- VoucherSigningConfig (field used by voucher_callback.go). -/
structure VoucherSigningConfig where
  Mode : String
deriving DecidableEq, Repr

/-- OwnerSignover configuration (fields used by voucher_callback.go). -/
structure OwnerSignoverConfig where
  Mode : String
  StaticPublicKey : String
  StaticDID : String
  ExternalCommand : String
deriving DecidableEq, Repr

/-- VoucherUpload configuration (field used by voucher_callback.go). -/
structure VoucherUploadConfig where
  Enabled : Bool
deriving DecidableEq, Repr

/-- SaveToDisk configuration (field used by voucher_callback.go). -/
structure SaveToDiskConfig where
  Directory : String
deriving DecidableEq, Repr

/-- VoucherConfig (fields used by voucher_callback.go). -/
structure VoucherConfig where
  PersistToDB : Bool
  VoucherSigning : VoucherSigningConfig
  OwnerSignover : OwnerSignoverConfig
  VoucherUpload : VoucherUploadConfig
  SaveToDisk : SaveToDiskConfig
deriving DecidableEq, Repr

/-- One recorded collaborator invocation of the orchestrator workflow.
diskSaveCall records whether the disk save succeeded — the outcome is
logged, never acted on. -/
inductive WorkflowOp where
  | ownerLookup (serial model : String)
  | signCall (ov : Voucher) (target : Option GoVal) (serial model : String)
  | extendCall (ov : Voucher) (target : PubKeyVal)
  | uploadCall (serial model guid : String) (ov : Voucher)
  | diskSaveCall (ov : Voucher) (serial : String) (ok : Bool)
deriving DecidableEq, Repr

def hexDigitChar (n : Nat) : Char :=
  if n < 10 then Char.ofNat (48 + n) else Char.ofNat (87 + n)

/-- fmt.Sprintf with verb x over a byte slice: two lowercase hex digits per
byte. -/
def hexEncode (bs : List Nat) : String :=
  String.mk ((bs.map (fun b => [hexDigitChar (b / 16 % 16), hexDigitChar (b % 16)])).flatten)

/-- getDeviceInfo from voucher_callback.go composed with the duplicated
DeviceSelfInfo block at the top of BeforeVoucherPersist: session metadata
when available, then voucher-header fallbacks (hex GUID as last-resort
serial). Returns (serial, model, guid). -/
def getDeviceInfo (devInfo : Option DeviceMfgInfo) (ov : Voucher) :
    String × String × String :=
  let serial := match devInfo with
    | some i => i.SerialNumber
    | none => ""
  let model := match devInfo with
    | some i => i.DeviceInfo
    | none => ""
  let serial := if serial = "" then hexEncode ov.GUID else serial
  let model := if model = "" then ov.DeviceInfo else model
  (serial, model, hexEncode ov.GUID)

/-- Step 1 of BeforeVoucherPersist: the owner signover switch. In the
dynamic case the source assigns the whole OwnerKeyResult to the
crypto.PublicKey variable (nextOwner = ownerKey.(crypto.PublicKey), an
assertion on the entire result value, not on its PublicKey field), which
the GoVal.ownerResult constructor records verbatim. -/
def ownerStage (v : VoucherConfig)
    (parseStatic : String → Except String PubKeyVal)
    (getOwner : String → String → Except String OwnerKeyResult)
    (serial model : String) :
    Except String (Option GoVal) × List WorkflowOp :=
  if v.OwnerSignover.Mode = "static" then
    if v.OwnerSignover.StaticPublicKey ≠ "" then
      match parseStatic v.OwnerSignover.StaticPublicKey with
      | .error e => (.error ("failed to parse static public key: " ++ e), [])
      | .ok k => (.ok (some (GoVal.key k)), [])
    else
      (.ok none, [])
  else if v.OwnerSignover.Mode = "dynamic" then
    if v.OwnerSignover.ExternalCommand ≠ "" then
      match getOwner serial model with
      | .error e =>
          (.error ("failed to get dynamic owner key: " ++ e), [WorkflowOp.ownerLookup serial model])
      | .ok r =>
          (.ok (some (GoVal.ownerResult r)), [WorkflowOp.ownerLookup serial model])
    else
      (.error "dynamic mode enabled but no external command configured", [])
  else
    -- unsupported owner signover mode: logged, no owner signover
    (.ok none, [])

/-- The direct single-hop extension of step 2, one dispatch arm per
concrete key type accepted by fdo.ExtendVoucher. -/
def extendArm (extendV : Voucher → PubKeyVal → Except String Voucher)
    (ov : Voucher) (k : PubKeyVal) : Except String Voucher × List WorkflowOp :=
  match extendV ov k with
  | .error e => (.error ("failed to extend voucher to owner: " ++ e), [WorkflowOp.extendCall ov k])
  | .ok ev => (.ok ev, [WorkflowOp.extendCall ov k])

/-- Step 2 of BeforeVoucherPersist: voucher signing when a signing mode is
configured (best-effort OVEExtra fetch, failure swallowed), else a direct
extension dispatched on the concrete type of nextOwner; a value that is
none of rsa, ec or certificate chain — in particular the boxed
OwnerKeyResult from the dynamic branch — hits the default arm and fails. -/
def signStage (v : VoucherConfig)
    (oveExtra : Option (String → String → Except String ExtraData))
    (signV : Voucher → Option GoVal → String → String → Option ExtraData → Except String Voucher)
    (extendV : Voucher → PubKeyVal → Except String Voucher)
    (ov : Voucher) (nextOwner : Option GoVal) (serial model : String) :
    Except String Voucher × List WorkflowOp :=
  if v.VoucherSigning.Mode ≠ "" then
    let extraData : Option ExtraData :=
      match oveExtra with
      | some f =>
          match f serial model with
          | .ok d => some d
          | .error _ => none  -- continue without extra data
      | none => none
    match signV ov nextOwner serial model extraData with
    | .error e =>
        (.error ("voucher signing failed: " ++ e), [WorkflowOp.signCall ov nextOwner serial model])
    | .ok sv => (.ok sv, [WorkflowOp.signCall ov nextOwner serial model])
  else
    match nextOwner with
    | none => (.ok ov, [])
    | some (GoVal.key (PubKeyVal.rsa n e)) => extendArm extendV ov (PubKeyVal.rsa n e)
    | some (GoVal.key (PubKeyVal.ec crv x y)) => extendArm extendV ov (PubKeyVal.ec crv x y)
    | some (GoVal.key (PubKeyVal.certChain cs)) => extendArm extendV ov (PubKeyVal.certChain cs)
    | some (GoVal.key (PubKeyVal.other _)) => (.error "unsupported owner key type", [])
    | some (GoVal.ownerResult _) => (.error "unsupported owner key type", [])

/-- Step 3 of BeforeVoucherPersist: upload when enabled; the collaborator
receives serial, model, the hex GUID and the voucher — the contract carries
no destination URL. -/
def uploadStage (v : VoucherConfig)
    (uploadV : String → String → String → Voucher → Except String Unit)
    (serial model guidStr : String) (ov2 : Voucher) :
    Except String Unit × List WorkflowOp :=
  if v.VoucherUpload.Enabled then
    match uploadV serial model guidStr ov2 with
    | .error e => (.error ("voucher upload failed: " ++ e), [WorkflowOp.uploadCall serial model guidStr ov2])
    | .ok _ => (.ok (), [WorkflowOp.uploadCall serial model guidStr ov2])
  else
    (.ok (), [])

/-- Step 4 of BeforeVoucherPersist: best-effort disk save when configured;
the outcome is recorded in the trace (the log) and nowhere else. -/
def diskStage (v : VoucherConfig)
    (saveDisk : Voucher → String → Except String Unit)
    (ov2 : Voucher) (serial : String) : List WorkflowOp :=
  if v.SaveToDisk.Directory ≠ "" then
    match saveDisk ov2 serial with
    | .error _ => [WorkflowOp.diskSaveCall ov2 serial false]
    | .ok _ => [WorkflowOp.diskSaveCall ov2 serial true]
  else
    []

/-- BeforeVoucherPersist from voucher_callback.go: the full per-device
workflow. Returns (outcome, final voucher as seen by the caller through the
mutated pointer, collaborator trace). The voucher value is replaced only by
the assignments following a successful sign or extend; every abort before
those leaves the caller's voucher untouched, and an upload abort leaves the
already-signed value in place. -/
def BeforeVoucherPersist (v : VoucherConfig)
    (parseStatic : String → Except String PubKeyVal)
    (getOwner : String → String → Except String OwnerKeyResult)
    (oveExtra : Option (String → String → Except String ExtraData))
    (signV : Voucher → Option GoVal → String → String → Option ExtraData → Except String Voucher)
    (extendV : Voucher → PubKeyVal → Except String Voucher)
    (uploadV : String → String → String → Voucher → Except String Unit)
    (saveDisk : Voucher → String → Except String Unit)
    (devInfo : Option DeviceMfgInfo) (ov : Voucher) :
    Except String Bool × Voucher × List WorkflowOp :=
  let sm := getDeviceInfo devInfo ov
  let serial := sm.1
  let model := sm.2.1
  let guidStr := hexEncode ov.GUID
  match ownerStage v parseStatic getOwner serial model with
  | (.error e, tr) => (.error e, ov, tr)
  | (.ok nextOwner, tr) =>
    match signStage v oveExtra signV extendV ov nextOwner serial model with
    | (.error e, tr2) => (.error e, ov, tr ++ tr2)
    | (.ok ov2, tr2) =>
      match uploadStage v uploadV serial model guidStr ov2 with
      | (.error e, tr3) => (.error e, ov2, tr ++ tr2 ++ tr3)
      | (.ok _, tr3) =>
        let tr4 := diskStage v saveDisk ov2 serial
        (.ok v.PersistToDB, ov2, tr ++ tr2 ++ tr3 ++ tr4)

/-
Claim theorems.
-/

/-- Claim C1: the spec requires JWK decoding to return the key built from
the encoded JWK coordinates (EC x/y, RSA n/e) and never freshly generated
unrelated key material. The code does the opposite: parseECJWK and
parseRSAJWK generate fresh test keys from the ambient randomness and never
read the coordinate fields. At the same JWK the output varies with the
randomness, is identical across JWKs with different coordinates, and the
RSA parser likewise returns only the generated key. -/
theorem c1_jwk_decode_ignores_coordinates :
    (parseECJWK (1, 2)
        { kty := some "EC", crv := some "P-256", x := some "AQAB", y := some "AgEC",
          n := none, e := none }
      = .ok (.ec "P-256" 1 2))
  ∧ (parseECJWK (3, 4)
        { kty := some "EC", crv := some "P-256", x := some "AQAB", y := some "AgEC",
          n := none, e := none }
      = .ok (.ec "P-256" 3 4))
  ∧ (parseECJWK (1, 2)
        { kty := some "EC", crv := some "P-256", x := some "AQAB", y := some "AgEC",
          n := none, e := none }
      = parseECJWK (1, 2)
        { kty := some "EC", crv := some "P-256", x := some "zzzz", y := some "wwww",
          n := none, e := none })
  ∧ ((some "AQAB" : Option String) ≠ some "zzzz")
  ∧ (parseRSAJWK (5, 6)
        { kty := some "RSA", crv := none, x := none, y := none,
          n := some "u1SU1L", e := some "AQAB" }
      = .ok (.rsa 5 6)) :=
  ⟨rfl, rfl, rfl, by decide, rfl⟩

/-- Claim C2: the spec says a non-empty identifier URI is delegated to the
DID Resolver with caching disabled for the call, and that disabling caching
does not by itself fail the resolution. In the code handleDIDResponse
builds the resolver with DIDCache{Enabled: false}, and ResolveDIDKey
returns the error "DID cache is disabled" whenever Enabled is false, so
every identifier-URI response fails — here evaluated with a network oracle
that would resolve the document successfully. -/
theorem c2_did_delegation_always_fails :
    GetOwnerKey (fun _ => .ok (.rsa 5 7, "https://example.com/vouchers"))
        (fun _ => .error "unused")
        { OwnerKeyPEM := "", OwnerDID := "did:web:example.com", Error := "" } 0
      = .error (.err "failed to resolve DID did:web:example.com: DID cache is disabled") :=
  rfl

/-- Claim C6: the spec says any unsupported identifier method fails with an
UnsupportedMethod error and the claim adds that this never crashes, even
for URIs without a colon. The code builds the message by indexing
strings.Split(didURI, ":")[1]; for a colon-free URI the split has a single
element and the index panics. Evaluated at the colon-free URI "example"
with the resolver enabled. -/
theorem c6_no_colon_uri_panics :
    ResolveDIDKey
        { Enabled := true, RefreshInterval := 3600, MaxAge := 86400,
          FailureBackoff := 3600, PurgeUnused := 604800 }
        (fun _ => .error "no network") [] "example" 0
      = (.error (.panic "runtime error: index out of range"), [], []) :=
  rfl

/-- Claim C4: for a cache entry of age X = now - resolved_at, the refresh
decision is exactly: refresh when X > MaxAge regardless of the last
refresh attempt; else no refresh when X < RefreshInterval; else no refresh
when now - last_refresh_attempt < FailureBackoff; else refresh. -/
theorem c4_refresh_policy_exact (config : DIDCache) (cached : DIDCacheEntry) (now : Int) :
    (now - cached.Timestamp > config.MaxAge → shouldRefresh config cached now = true)
  ∧ (now - cached.Timestamp ≤ config.MaxAge → now - cached.Timestamp < config.RefreshInterval →
      shouldRefresh config cached now = false)
  ∧ (now - cached.Timestamp ≤ config.MaxAge → config.RefreshInterval ≤ now - cached.Timestamp →
      now - cached.LastRefreshAttempt < config.FailureBackoff →
      shouldRefresh config cached now = false)
  ∧ (now - cached.Timestamp ≤ config.MaxAge → config.RefreshInterval ≤ now - cached.Timestamp →
      config.FailureBackoff ≤ now - cached.LastRefreshAttempt →
      shouldRefresh config cached now = true) := by
  unfold shouldRefresh
  refine ⟨fun h1 => ?_, fun h1 h2 => ?_, fun h1 h2 h3 => ?_, fun h1 h2 h3 => ?_⟩ <;>
    split_ifs <;> first | rfl | (exfalso; omega)

/-- Witness for C4: the four cases of the refresh policy at concrete
entries and times, with RefreshInterval 10, MaxAge 100, FailureBackoff 20:
age 200 refreshes inside an active backoff window, age 5 does not refresh,
age 50 with an attempt 10 ago does not refresh, age 70 with an attempt 30
ago refreshes. -/
theorem c4_refresh_policy_exact_witness :
    shouldRefresh
      { Enabled := true, RefreshInterval := 10, MaxAge := 100,
        FailureBackoff := 20, PurgeUnused := 0 }
      { DIDURI := "did:web:a", PublicKey := [1, 5, 7], DIDURL := "", Timestamp := 0,
        LastRefreshAttempt := 190, LastRefreshError := "x", LastUsed := 0 }
      200 = true
  ∧ shouldRefresh
      { Enabled := true, RefreshInterval := 10, MaxAge := 100,
        FailureBackoff := 20, PurgeUnused := 0 }
      { DIDURI := "did:web:a", PublicKey := [1, 5, 7], DIDURL := "", Timestamp := 0,
        LastRefreshAttempt := 0, LastRefreshError := "", LastUsed := 0 }
      5 = false
  ∧ shouldRefresh
      { Enabled := true, RefreshInterval := 10, MaxAge := 100,
        FailureBackoff := 20, PurgeUnused := 0 }
      { DIDURI := "did:web:a", PublicKey := [1, 5, 7], DIDURL := "", Timestamp := 0,
        LastRefreshAttempt := 40, LastRefreshError := "x", LastUsed := 0 }
      50 = false
  ∧ shouldRefresh
      { Enabled := true, RefreshInterval := 10, MaxAge := 100,
        FailureBackoff := 20, PurgeUnused := 0 }
      { DIDURI := "did:web:a", PublicKey := [1, 5, 7], DIDURL := "", Timestamp := 0,
        LastRefreshAttempt := 40, LastRefreshError := "x", LastUsed := 0 }
      70 = true :=
  ⟨(c4_refresh_policy_exact _ _ _).1 (by decide),
   (c4_refresh_policy_exact _ _ _).2.1 (by decide) (by decide),
   (c4_refresh_policy_exact _ _ _).2.2.1 (by decide) (by decide) (by decide),
   (c4_refresh_policy_exact _ _ _).2.2.2 (by decide) (by decide) (by decide)⟩

/-- Claim C7: resolving a did:key URI through the public ResolveDIDKey
entry point performs no Cache Store operation at all — the table is
returned unchanged and the operation trace is empty, whatever the
configuration, network and cache contents. -/
theorem c7_didkey_resolution_no_cache_ops (config : DIDCache) (net : NetFetch)
    (cache : Cache) (uri : String) (now : Int)
    (h : stringsHasPfx uri "did:key:" = true) :
    (ResolveDIDKey config net cache uri now).2.1 = cache
  ∧ (ResolveDIDKey config net cache uri now).2.2 = ([] : List CacheOp) := by
  unfold ResolveDIDKey
  cases hE : config.Enabled <;> simp [hE, h]

/-- Witness for C7 at the concrete URI did:key:z6MkTest with an enabled
resolver, a failing network and a non-empty cache: the cache and the trace
of the call come back untouched. -/
theorem c7_didkey_resolution_no_cache_ops_witness :
    (ResolveDIDKey
        { Enabled := true, RefreshInterval := 10, MaxAge := 100,
          FailureBackoff := 20, PurgeUnused := 0 }
        (fun _ => .error "down")
        [{ DIDURI := "did:web:a", PublicKey := [1, 5, 7], DIDURL := "", Timestamp := 0,
           LastRefreshAttempt := 0, LastRefreshError := "", LastUsed := 0 }]
        "did:key:z6MkTest" 0).2.1
      = [{ DIDURI := "did:web:a", PublicKey := [1, 5, 7], DIDURL := "", Timestamp := 0,
           LastRefreshAttempt := 0, LastRefreshError := "", LastUsed := 0 }]
  ∧ (ResolveDIDKey
        { Enabled := true, RefreshInterval := 10, MaxAge := 100,
          FailureBackoff := 20, PurgeUnused := 0 }
        (fun _ => .error "down")
        [{ DIDURI := "did:web:a", PublicKey := [1, 5, 7], DIDURL := "", Timestamp := 0,
           LastRefreshAttempt := 0, LastRefreshError := "", LastUsed := 0 }]
        "did:key:z6MkTest" 0).2.2 = ([] : List CacheOp) :=
  c7_didkey_resolution_no_cache_ops _ _ _ _ _ (by rfl)

/-- Updating rows in place (an UPDATE ... WHERE did_uri = uri) commutes
with the keyed lookup when the update preserves the key. -/
theorem getFromCache_map_update (cache : Cache) (uri : String)
    (f : DIDCacheEntry → DIDCacheEntry) (hf : ∀ e, (f e).DIDURI = e.DIDURI) :
    getFromCache (cache.map (fun e => if e.DIDURI == uri then f e else e)) uri
      = (getFromCache cache uri).map f := by
  unfold getFromCache
  induction cache with
  | nil => rfl
  | cons a t ih =>
      by_cases h : (a.DIDURI == uri) = true
      · have hfa : ((f a).DIDURI == uri) = true := by rw [hf a]; exact h
        rw [List.map_cons, if_pos h]
        simp only [List.find?]
        rw [hfa, h]
        rfl
      · have h' : (a.DIDURI == uri) = false := Bool.eq_false_iff.mpr h
        rw [List.map_cons, if_neg h]
        simp only [List.find?]
        rw [h']
        exact ih

/-- Claim C5: on the web-hosted cached path, when a cache row exists, the
refresh policy fires and the network refresh fails, the call succeeds with
the previously cached key and delivery URL, and the row afterwards carries
last_used = now, last_refresh_attempt = now and the failure message in
last_refresh_error with every other column — in particular resolved_at —
unchanged; when no cache row exists, the fetch failure propagates as the
call's error. -/
theorem c5_failed_refresh_serves_stale :
    (∀ (config : DIDCache) (net : NetFetch) (cache : Cache) (uri : String) (now : Int)
       (entry : DIDCacheEntry) (msg : String) (k : PubKeyVal),
       config.Enabled = true →
       stringsHasPfx uri "did:key:" = false →
       stringsHasPfx uri "did:web:" = true →
       getFromCache cache uri = some entry →
       shouldRefresh config entry now = true →
       net uri = .error msg →
       parsePKIXPublicKey entry.PublicKey = some k →
       (ResolveDIDKey config net cache uri now).1 = .ok (k, entry.DIDURL)
       ∧ getFromCache (ResolveDIDKey config net cache uri now).2.1 uri
           = some { entry with LastUsed := now, LastRefreshAttempt := now,
                               LastRefreshError := msg })
  ∧ (∀ (config : DIDCache) (net : NetFetch) (cache : Cache) (uri : String) (now : Int)
       (msg : String),
       config.Enabled = true →
       stringsHasPfx uri "did:key:" = false →
       stringsHasPfx uri "did:web:" = true →
       getFromCache cache uri = none →
       net uri = .error msg →
       (ResolveDIDKey config net cache uri now).1 = .error (.err msg)) := by
  constructor
  · intro config net cache uri now entry msg k hEn hKey hWeb hGet hSR hNet hPK
    have hmain : ResolveDIDKey config net cache uri now
        = (.ok (k, entry.DIDURL),
           updateCacheError (updateLastUsed cache uri now) uri now msg,
           [CacheOp.read uri, CacheOp.touchLastUsed uri now, CacheOp.recordError uri now msg]) := by
      simp only [ResolveDIDKey, hEn, Bool.not_true, Bool.false_eq_true, if_false, hKey, hWeb,
        if_true, resolveDIDWebCached, hGet, hSR, refreshFromNetwork, fetchDIDWeb, hNet, hPK]
      rfl
    refine ⟨by rw [hmain], ?_⟩
    rw [hmain]
    show getFromCache (updateCacheError (updateLastUsed cache uri now) uri now msg) uri = _
    unfold updateCacheError
    rw [getFromCache_map_update (updateLastUsed cache uri now) uri
          (fun e => { e with LastRefreshAttempt := now, LastRefreshError := msg })
          (fun e => rfl)]
    unfold updateLastUsed
    rw [getFromCache_map_update cache uri (fun e => { e with LastUsed := now }) (fun e => rfl),
        hGet]
    rfl
  · intro config net cache uri now msg hEn hKey hWeb hGet hNet
    simp only [ResolveDIDKey, hEn, Bool.not_true, Bool.false_eq_true, if_false, hKey, hWeb,
      if_true, resolveDIDWebCached, hGet, refreshFromNetwork, fetchDIDWeb, hNet]

def cfgC5 : DIDCache :=
  { Enabled := true, RefreshInterval := 10, MaxAge := 100,
    FailureBackoff := 20, PurgeUnused := 0 }

def entryC5 : DIDCacheEntry :=
  { DIDURI := "did:web:example.com", PublicKey := [1, 5, 7],
    DIDURL := "https://example.com/vouchers/owner", Timestamp := 0,
    LastRefreshAttempt := 0, LastRefreshError := "", LastUsed := 0 }

def netC5 : NetFetch := fun _ => .error "connection refused"

/-- Witness for C5: a concrete entry resolved at time 0, now 150 (past
MaxAge 100), network down. The call returns the stale RSA key and cached
URL; afterwards the row records the attempt and the error with resolved_at
still 0; and the same call against an empty cache propagates the network
error. -/
theorem c5_failed_refresh_serves_stale_witness :
    (ResolveDIDKey cfgC5 netC5 [entryC5] "did:web:example.com" 150).1
      = .ok (.rsa 5 7, "https://example.com/vouchers/owner")
  ∧ getFromCache (ResolveDIDKey cfgC5 netC5 [entryC5] "did:web:example.com" 150).2.1
        "did:web:example.com"
      = some
        { DIDURI := "did:web:example.com", PublicKey := [1, 5, 7],
          DIDURL := "https://example.com/vouchers/owner", Timestamp := 0,
          LastRefreshAttempt := 150, LastRefreshError := "connection refused",
          LastUsed := 150 }
  ∧ (ResolveDIDKey cfgC5 netC5 [] "did:web:example.com" 150).1
      = .error (.err "connection refused") :=
  ⟨(c5_failed_refresh_serves_stale.1 cfgC5 netC5 [entryC5] "did:web:example.com" 150
      entryC5 "connection refused" (.rsa 5 7) rfl rfl rfl rfl rfl rfl rfl).1,
   (c5_failed_refresh_serves_stale.1 cfgC5 netC5 [entryC5] "did:web:example.com" 150
      entryC5 "connection refused" (.rsa 5 7) rfl rfl rfl rfl rfl rfl rfl).2,
   c5_failed_refresh_serves_stale.2 cfgC5 netC5 [] "did:web:example.com" 150
      "connection refused" rfl rfl rfl rfl rfl⟩

/-- Claim C8: whenever BeforeVoucherPersist completes without a fatal
error, the boolean it returns is exactly the configured persist-to-store
flag, for every configuration, collaborator behaviour and input — in
particular independent of whether signover, signing, upload or disk-save
took place. -/
theorem c8_result_is_persist_flag (v : VoucherConfig)
    (parseStatic : String → Except String PubKeyVal)
    (getOwner : String → String → Except String OwnerKeyResult)
    (oveExtra : Option (String → String → Except String ExtraData))
    (signV : Voucher → Option GoVal → String → String → Option ExtraData → Except String Voucher)
    (extendV : Voucher → PubKeyVal → Except String Voucher)
    (uploadV : String → String → String → Voucher → Except String Unit)
    (saveDisk : Voucher → String → Except String Unit)
    (devInfo : Option DeviceMfgInfo) (ov : Voucher)
    (b : Bool) (vout : Voucher) (tr : List WorkflowOp)
    (h : BeforeVoucherPersist v parseStatic getOwner oveExtra signV extendV uploadV saveDisk
           devInfo ov = (.ok b, vout, tr)) :
    b = v.PersistToDB := by
  simp only [BeforeVoucherPersist] at h
  split at h
  · simp at h
  · split at h
    · simp at h
    · split at h
      · simp at h
      · simp only [Prod.mk.injEq, Except.ok.injEq] at h
        exact h.1.symm

def cfgD : VoucherConfig :=
  { PersistToDB := true, VoucherSigning := { Mode := "internal" },
    OwnerSignover := { Mode := "static", StaticPublicKey := "", StaticDID := "",
                       ExternalCommand := "" },
    VoucherUpload := { Enabled := false }, SaveToDisk := { Directory := "" } }

def ovD : Voucher := { GUID := [], DeviceInfo := "DEV", body := 0 }

def psU : String → Except String PubKeyVal := fun _ => .error "unused"

def goU : String → String → Except String OwnerKeyResult := fun _ _ => .error "unused"

def svOk : Voucher → Option GoVal → String → String → Option ExtraData → Except String Voucher :=
  fun ov _ _ _ _ => .ok ov

def evU : Voucher → PubKeyVal → Except String Voucher := fun _ _ => .error "unused"

def uvOk : String → String → String → Voucher → Except String Unit := fun _ _ _ _ => .ok ()

def sdOk : Voucher → String → Except String Unit := fun _ _ => .ok ()

/-- Witness for C8, scenario D of the spec: static mode with an empty
configured key, default signing mode, no upload, no disk directory; the
workflow succeeds with no signover and the theorem yields that the returned
boolean is the configured flag. -/
theorem c8_result_is_persist_flag_witness : true = cfgD.PersistToDB :=
  c8_result_is_persist_flag cfgD psU goU none svOk evU uvOk sdOk none ovD true ovD
    [WorkflowOp.signCall ovD none "" "DEV"] rfl

/-- Claim C9: the disk-save collaborator failing (with any message) leaves
both the workflow outcome and the final voucher identical to the run where
it succeeds — the failure is recorded in the log trace only; in particular
the workflow never aborts because of it and still reaches the persistence
decision. -/
theorem c9_disk_save_failure_not_fatal (v : VoucherConfig)
    (parseStatic : String → Except String PubKeyVal)
    (getOwner : String → String → Except String OwnerKeyResult)
    (oveExtra : Option (String → String → Except String ExtraData))
    (signV : Voucher → Option GoVal → String → String → Option ExtraData → Except String Voucher)
    (extendV : Voucher → PubKeyVal → Except String Voucher)
    (uploadV : String → String → String → Voucher → Except String Unit)
    (emsg : String) (devInfo : Option DeviceMfgInfo) (ov : Voucher) :
    ((BeforeVoucherPersist v parseStatic getOwner oveExtra signV extendV uploadV
        (fun _ _ => .error emsg) devInfo ov).1
      = (BeforeVoucherPersist v parseStatic getOwner oveExtra signV extendV uploadV
        (fun _ _ => .ok ()) devInfo ov).1)
  ∧ ((BeforeVoucherPersist v parseStatic getOwner oveExtra signV extendV uploadV
        (fun _ _ => .error emsg) devInfo ov).2.1
      = (BeforeVoucherPersist v parseStatic getOwner oveExtra signV extendV uploadV
        (fun _ _ => .ok ()) devInfo ov).2.1) := by
  simp only [BeforeVoucherPersist]
  rcases hO : ownerStage v parseStatic getOwner (getDeviceInfo devInfo ov).1
      (getDeviceInfo devInfo ov).2.1 with ⟨ro, tro⟩
  cases ro with
  | error e => simp [hO]
  | ok nextOwner =>
      rcases hS : signStage v oveExtra signV extendV ov nextOwner (getDeviceInfo devInfo ov).1
          (getDeviceInfo devInfo ov).2.1 with ⟨rs, trs⟩
      cases rs with
      | error e => simp [hO, hS]
      | ok ov2 =>
          rcases hU : uploadStage v uploadV (getDeviceInfo devInfo ov).1
              (getDeviceInfo devInfo ov).2.1 (hexEncode ov.GUID) ov2 with ⟨ru, tru⟩
          cases ru with
          | error e => simp [hO, hS, hU]
          | ok u => simp [hO, hS, hU]

/-- Claim C10: when the workflow aborts with a fatal error before a
successful sign or extend — owner-key resolution failing in dynamic mode,
the static key failing to parse, the signing service failing, or the
direct extension failing — the final voucher seen by the caller is the
input voucher, unmodified. (Device-identity derivation never aborts in the
source: getDeviceInfo returns fallbacks, so there is no abort site there.)
The voucher value changes only through the assignments that follow a
successful sign or extend. -/
theorem c10_voucher_unmodified_on_abort (v : VoucherConfig)
    (parseStatic : String → Except String PubKeyVal)
    (getOwner : String → String → Except String OwnerKeyResult)
    (oveExtra : Option (String → String → Except String ExtraData))
    (signV : Voucher → Option GoVal → String → String → Option ExtraData → Except String Voucher)
    (extendV : Voucher → PubKeyVal → Except String Voucher)
    (uploadV : String → String → String → Voucher → Except String Unit)
    (saveDisk : Voucher → String → Except String Unit)
    (devInfo : Option DeviceMfgInfo) (ov : Voucher) (e1 e2 e3 e4 : String) :
    (v.OwnerSignover.Mode = "dynamic" →
     (∀ s m, getOwner s m = .error e1) →
     (BeforeVoucherPersist v parseStatic getOwner oveExtra signV extendV uploadV saveDisk
        devInfo ov).2.1 = ov)
  ∧ (v.OwnerSignover.Mode = "static" →
     v.OwnerSignover.StaticPublicKey ≠ "" →
     parseStatic v.OwnerSignover.StaticPublicKey = .error e2 →
     (BeforeVoucherPersist v parseStatic getOwner oveExtra signV extendV uploadV saveDisk
        devInfo ov).2.1 = ov)
  ∧ ((∀ a b c d f, signV a b c d f = .error e3) →
     v.VoucherSigning.Mode ≠ "" →
     (BeforeVoucherPersist v parseStatic getOwner oveExtra signV extendV uploadV saveDisk
        devInfo ov).2.1 = ov)
  ∧ (v.VoucherSigning.Mode = "" →
     (∀ a k, extendV a k = .error e4) →
     (BeforeVoucherPersist v parseStatic getOwner oveExtra signV extendV uploadV saveDisk
        devInfo ov).2.1 = ov) := by
  refine ⟨?_, ?_, ?_, ?_⟩
  · intro hMode hGo
    by_cases hc : v.OwnerSignover.ExternalCommand = ""
    · simp [BeforeVoucherPersist, ownerStage, hMode, hc]
    · simp [BeforeVoucherPersist, ownerStage, hMode, hc, hGo]
  · intro hMode hKey hPs
    simp [BeforeVoucherPersist, ownerStage, hMode, hKey, hPs]
  · intro hSign hMode
    simp only [BeforeVoucherPersist]
    rcases hO : ownerStage v parseStatic getOwner (getDeviceInfo devInfo ov).1
        (getDeviceInfo devInfo ov).2.1 with ⟨ro, tro⟩
    cases ro with
    | error e => simp [hO]
    | ok nextOwner => simp [hO, signStage, hMode, hSign]
  · intro hMode hExt
    simp only [BeforeVoucherPersist]
    rcases hO : ownerStage v parseStatic getOwner (getDeviceInfo devInfo ov).1
        (getDeviceInfo devInfo ov).2.1 with ⟨ro, tro⟩
    cases ro with
    | error e => simp [hO]
    | ok nextOwner =>
        cases nextOwner with
        | none =>
            rcases hU : uploadStage v uploadV (getDeviceInfo devInfo ov).1
                (getDeviceInfo devInfo ov).2.1 (hexEncode ov.GUID) ov with ⟨ru, tru⟩
            cases ru with
            | error e => simp [hO, signStage, hMode, hU]
            | ok u => simp [hO, signStage, hMode, hU]
        | some gv =>
            cases gv with
            | key k =>
                cases k with
                | ec crv x y => simp [hO, signStage, hMode, extendArm, hExt]
                | rsa n e => simp [hO, signStage, hMode, extendArm, hExt]
                | certChain cs => simp [hO, signStage, hMode, extendArm, hExt]
                | other t => simp [hO, signStage, hMode]
            | ownerResult r => simp [hO, signStage, hMode]

def cfgDyn : VoucherConfig :=
  { PersistToDB := false, VoucherSigning := { Mode := "internal" },
    OwnerSignover := { Mode := "dynamic", StaticPublicKey := "", StaticDID := "",
                       ExternalCommand := "/usr/local/bin/ownerkey" },
    VoucherUpload := { Enabled := true }, SaveToDisk := { Directory := "/var/vouchers" } }

def goFail : String → String → Except String OwnerKeyResult :=
  fun _ _ => .error "authority down"

/-- Witness for C10: in dynamic mode with the authority command failing,
the workflow aborts and the voucher handed back equals the voucher passed
in. -/
theorem c10_voucher_unmodified_on_abort_witness :
    (BeforeVoucherPersist cfgDyn psU goFail none svOk evU uvOk sdOk none ovD).2.1 = ovD :=
  (c10_voucher_unmodified_on_abort cfgDyn psU goFail none svOk evU uvOk sdOk none ovD
      "authority down" "x" "x" "x").1 rfl (fun _ _ => rfl)

def rA : OwnerKeyResult :=
  { PublicKey := .ec "P-256" 11 22, DIDURL := "https://example.com/vouchers/owner" }

def cfgA : VoucherConfig :=
  { PersistToDB := true, VoucherSigning := { Mode := "internal" },
    OwnerSignover := { Mode := "dynamic", StaticPublicKey := "", StaticDID := "",
                       ExternalCommand := "/usr/local/bin/ownerkey" },
    VoucherUpload := { Enabled := true }, SaveToDisk := { Directory := "" } }

def goA : String → String → Except String OwnerKeyResult := fun _ _ => .ok rA

def isUploadOp : WorkflowOp → Bool
  | .uploadCall _ _ _ _ => true
  | _ => false

/-- Claim C3 (code bug evidence): in dynamic mode with default signing,
when the Owner Key Service resolves an EC P-256 key together with a
delivery URL, (i) the signover target handed to the signing service is the
whole boxed OwnerKeyResult — the source asserts the entire result value to
crypto.PublicKey rather than taking its PublicKey field — which differs
from the resolved public key; and (ii) the upload collaborator receives
only (serial, model, guid, voucher): the resolved delivery URL appears
nowhere in the upload invocation, which is bit-for-bit the same when the
authority returns a different delivery URL. -/
theorem c3_dynamic_signover_miswired :
    (BeforeVoucherPersist cfgA psU goA none svOk evU uvOk sdOk
        (some { SerialNumber := "SER", DeviceInfo := "MOD" }) ovD
      = (.ok true, ovD,
         [WorkflowOp.ownerLookup "SER" "MOD",
          WorkflowOp.signCall ovD (some (GoVal.ownerResult rA)) "SER" "MOD",
          WorkflowOp.uploadCall "SER" "MOD" "" ovD]))
  ∧ GoVal.ownerResult rA ≠ GoVal.key rA.PublicKey
  ∧ ((BeforeVoucherPersist cfgA psU
        (fun _ _ => .ok { rA with DIDURL := "https://other.example.org/import" })
        none svOk evU uvOk sdOk
        (some { SerialNumber := "SER", DeviceInfo := "MOD" }) ovD).2.2.filter isUploadOp
      = (BeforeVoucherPersist cfgA psU goA none svOk evU uvOk sdOk
          (some { SerialNumber := "SER", DeviceInfo := "MOD" }) ovD).2.2.filter isUploadOp)
  ∧ ((BeforeVoucherPersist cfgA psU goA none svOk evU uvOk sdOk
        (some { SerialNumber := "SER", DeviceInfo := "MOD" }) ovD).2.2.filter isUploadOp
      = [WorkflowOp.uploadCall "SER" "MOD" "" ovD]) :=
  ⟨rfl, by decide, rfl, rfl⟩
